import Mathlib

/-!
Shallow embedding of the smart_swap (SkillSwap) Django application core:
the relational rows of `core/models.py` and the state-transition view
functions of `core/views.py` and the `MeetingForm` validation of
`core/forms.py`.

Conventions of the embedding:
* Users are identified by their numeric id (`Nat`); the username lookup
  `User.objects.get(username=...)` is modelled as an id lookup, since
  usernames are unique and in bijection with ids.
* Database tables are lists of row structures; `QuerySet.create` appends a
  row, `QuerySet.filter(...).update(...)` maps an update over matching rows,
  `Model.save()` after a `get` updates the row with that primary key.
* Status columns are `String`, exactly as in Django `CharField` columns,
  because the source mixes casings (for example `'PENDING'` in
  `core/models.py` and `block_user`, but `'pending'` in
  `accept_message_request` and `decline_message_request`), and that casing
  is observable behaviour.
* A Django ORM query whose keyword arguments name a field that does not
  exist on the model raises `django.core.exceptions.FieldError` when the
  query is built.  `core/models.py` declares `MessageRequest` with fields
  `from_user` / `to_user`, while several views query it with `sender` /
  `receiver`; those queries are embedded as operations that return
  `Except.error`.
* Wall-clock time (`timezone.now()`) is passed as an explicit parameter
  where a view reads it; `MeetingForm` validation reads it as a single
  fixed instant `now`, measured in minutes on `Int`.
-/

/-- Row of the `Skill` model (`core/models.py`): only the columns the
embedded views consult. -/
structure SkillRow where
  id : Nat
  owner : Nat
  deriving Repr, DecidableEq

/-- Row of the `SkillRequest` model (`core/models.py`). -/
structure SkillRequestRow where
  id : Nat
  skill : Nat
  requester : Nat
  owner : Nat
  status : String
  started_at : Option Nat
  completed_at : Option Nat
  deriving Repr, DecidableEq

/-- Row of the `Message` model (`core/models.py`). -/
structure MessageRow where
  id : Nat
  from_user : Nat
  to_user : Nat
  content : String
  is_read : Bool
  deriving Repr, DecidableEq

/-- Row of the `UserBlock` model (`core/models.py`): fields `blocker` and
`blocked`, unique together. -/
structure UserBlockRow where
  blocker : Nat
  blocked : Nat
  deriving Repr, DecidableEq

/-- Row of the `MessageRequest` model (`core/models.py`): fields
`from_user` and `to_user` (there are no `sender` / `receiver` columns),
status defaulting to `"PENDING"`. -/
structure MessageRequestRow where
  id : Nat
  from_user : Nat
  to_user : Nat
  status : String
  deriving Repr, DecidableEq

/-- The relational store: one list per table used by the embedded views. -/
structure DB where
  users : List Nat
  skills : List SkillRow
  skillRequests : List SkillRequestRow
  messages : List MessageRow
  userBlocks : List UserBlockRow
  messageRequests : List MessageRequestRow
  deriving Repr, DecidableEq

/-- Embedding of `QuerySet.filter(...).update(...)` and of `save()` after a
filtered `get`: apply `u` to every row matching `p`. -/
def updateWhere (p : α → Bool) (u : α → α) (l : List α) : List α :=
  l.map (fun a => if p a then u a else a)

/-- Fresh primary key for a `create`: one more than the largest id present. -/
def freshId (ids : List Nat) : Nat :=
  ids.foldr max 0 + 1

/-- Errors Django raises out of ORM calls in the embedded views. -/
inductive DjangoError
  | fieldError
  deriving Repr, DecidableEq

/-- Embedding of `MessageRequest.objects.filter(Q(sender=u1, receiver=u2) |
Q(sender=u2, receiver=u1))` from `send_chat_message` (`core/views.py`
lines 1171 to 1174).  The `MessageRequest` model has columns `from_user` and
`to_user` only, so building this query raises `FieldError` before any row
is read. -/
def mrFilter_sender_receiver (_db : DB) (_u1 _u2 : Nat) :
    Except DjangoError (List MessageRequestRow) :=
  Except.error DjangoError.fieldError

/-- Embedding of `MessageRequest.objects.get(sender=s, receiver=r,
status='pending')` from `accept_message_request` and
`reject_message_request` (`core/views.py`): the keywords `sender` and
`receiver` do not resolve on the model, so the query raises `FieldError`. -/
def mrGet_sender_receiver_pending (_db : DB) (_s _r : Nat) :
    Except DjangoError MessageRequestRow :=
  Except.error DjangoError.fieldError

/-- Embedding of `MessageRequest.objects.create(sender=..., receiver=...,
message=...)` from `send_chat_message`: `sender` and `receiver` are invalid
keyword arguments for the model, so the call raises. -/
def mrCreate_sender_receiver (_db : DB) (_s _r : Nat) (_content : String) :
    Except DjangoError DB :=
  Except.error DjangoError.fieldError

-- ==============================
-- SKILL REQUEST VIEWS
-- ==============================

/-- Outcome of `request_skill` (`core/views.py` lines 685 to 739).  The
`alreadyRequested` constructor carries the info message flashed to the
caller, which is the only channel through which the existing status could
be reported. -/
inductive RequestSkillResult
  | skillNotFound
  | ownSkill
  | alreadyRequested (message : String)
  | created
  deriving Repr, DecidableEq

/-- Flash text of the `PENDING` branch of the duplicate-request dispatch
(`core/views.py` line 704). -/
def msg_already_pending : String :=
  "You have already requested this skill. Your request is pending approval."

/-- Flash text of the `APPROVED` branch (`core/views.py` line 706). -/
def msg_already_approved : String :=
  "Your request for this skill has been approved!"

/-- Flash text of the `REJECTED` branch (`core/views.py` line 708). -/
def msg_already_rejected : String :=
  "Your previous request for this skill was rejected."

/-- Flash text of the `COMPLETED` branch (`core/views.py` line 710). -/
def msg_already_completed : String :=
  "You have already completed learning this skill!"

/-- Flash text of the final `else` branch (`core/views.py` line 712),
emitted for every status outside the four named ones, for example
`IN_PROGRESS`; it carries no status information. -/
def msg_already_generic : String :=
  "You have already requested this skill."

/-- Embedding of the status dispatch of `request_skill` on an existing
request (`core/views.py` lines 703 to 712): explicit branches for
`PENDING`, `APPROVED`, `REJECTED` and `COMPLETED`, and the generic message
for any other status. -/
def request_skill_info_message (status : String) : String :=
  if status == "PENDING" then msg_already_pending
  else if status == "APPROVED" then msg_already_approved
  else if status == "REJECTED" then msg_already_rejected
  else if status == "COMPLETED" then msg_already_completed
  else msg_already_generic

/-- Embedding of `request_skill`: reject requests for an own skill, answer
the status-dispatched info message for an existing request for the same
(skill, requester) pair without creating a row, otherwise create one
`PENDING` row. -/
def request_skill (db : DB) (me skillId : Nat) : RequestSkillResult × DB :=
  match db.skills.find? (fun s => s.id == skillId) with
  | none => (RequestSkillResult.skillNotFound, db)
  | some skill =>
    if skill.owner == me then
      (RequestSkillResult.ownSkill, db)
    else
      match db.skillRequests.find? (fun r => r.skill == skillId && r.requester == me) with
      | some existing =>
        (RequestSkillResult.alreadyRequested (request_skill_info_message existing.status), db)
      | none =>
        let row : SkillRequestRow :=
          { id := freshId (db.skillRequests.map (fun r => r.id))
            skill := skillId
            requester := me
            owner := skill.owner
            status := "PENDING"
            started_at := none
            completed_at := none }
        (RequestSkillResult.created, { db with skillRequests := db.skillRequests ++ [row] })

/-- Outcome of the skill-request transition views. -/
inductive TransitionResult
  | notFound404
  | notAuthorized
  | wrongState
  | success
  deriving Repr, DecidableEq

/-- Embedding of `accept_request` (`core/views.py` lines 793 to 804):
`get_object_or_404(SkillRequest, id=request_id, owner=request.user)` then
unconditionally `req.status = 'APPROVED'; req.save()`.  No check of the
current status appears in the source. -/
def accept_request (db : DB) (me reqId : Nat) : TransitionResult × DB :=
  match db.skillRequests.find? (fun r => r.id == reqId && r.owner == me) with
  | none => (TransitionResult.notFound404, db)
  | some _ =>
    let l := updateWhere (fun r => r.id == reqId && r.owner == me)
      (fun r => { r with status := "APPROVED" }) db.skillRequests
    (TransitionResult.success, { db with skillRequests := l })

/-- Embedding of `reject_request` (`core/views.py` lines 806 to 817):
like `accept_request` but writing `'REJECTED'`, again with no status
check. -/
def reject_request (db : DB) (me reqId : Nat) : TransitionResult × DB :=
  match db.skillRequests.find? (fun r => r.id == reqId && r.owner == me) with
  | none => (TransitionResult.notFound404, db)
  | some _ =>
    let l := updateWhere (fun r => r.id == reqId && r.owner == me)
      (fun r => { r with status := "REJECTED" }) db.skillRequests
    (TransitionResult.success, { db with skillRequests := l })

/-- Embedding of `complete_request` (`core/views.py` lines 819 to 829):
checks that the caller is requester or owner, then writes `'COMPLETED'`
without checking the current status and without stamping `completed_at`. -/
def complete_request (db : DB) (me reqId : Nat) : TransitionResult × DB :=
  match db.skillRequests.find? (fun r => r.id == reqId) with
  | none => (TransitionResult.notFound404, db)
  | some r =>
    if me != r.requester && me != r.owner then
      (TransitionResult.notAuthorized, db)
    else
      let l := updateWhere (fun q => q.id == reqId)
        (fun q => { q with status := "COMPLETED" }) db.skillRequests
      (TransitionResult.success, { db with skillRequests := l })

/-- Embedding of `start_skill_session` (`core/views.py` lines 741 to 765):
only the owner, only from `'APPROVED'`; stamps `started_at`. -/
def start_skill_session (db : DB) (me reqId now : Nat) : TransitionResult × DB :=
  match db.skillRequests.find? (fun r => r.id == reqId) with
  | none => (TransitionResult.notFound404, db)
  | some r =>
    if me != r.owner then
      (TransitionResult.notAuthorized, db)
    else if r.status != "APPROVED" then
      (TransitionResult.wrongState, db)
    else
      let l := updateWhere (fun q => q.id == reqId)
        (fun q => { q with status := "IN_PROGRESS", started_at := some now })
        db.skillRequests
      (TransitionResult.success, { db with skillRequests := l })

/-- Embedding of `complete_skill_session` (`core/views.py` lines 767 to
791): owner or requester, only from `'IN_PROGRESS'`; stamps
`completed_at`. -/
def complete_skill_session (db : DB) (me reqId now : Nat) : TransitionResult × DB :=
  match db.skillRequests.find? (fun r => r.id == reqId) with
  | none => (TransitionResult.notFound404, db)
  | some r =>
    if me != r.owner && me != r.requester then
      (TransitionResult.notAuthorized, db)
    else if r.status != "IN_PROGRESS" then
      (TransitionResult.wrongState, db)
    else
      let l := updateWhere (fun q => q.id == reqId)
        (fun q => { q with status := "COMPLETED", completed_at := some now })
        db.skillRequests
      (TransitionResult.success, { db with skillRequests := l })

-- ==============================
-- MESSAGING VIEWS
-- ==============================

/-- Outcome of `send_message` (`core/views.py` lines 901 to 924). -/
inductive SendResult
  | userNotFound
  | sent
  deriving Repr, DecidableEq

/-- Embedding of the POST branch of `send_message`: looks the recipient up
and creates the `Message` row unconditionally; the source contains no block
check and no message-request gate. -/
def send_message (db : DB) (me recipientId : Nat) (text : String) : SendResult × DB :=
  if !(db.users.contains recipientId) then
    (SendResult.userNotFound, db)
  else
    let row : MessageRow :=
      { id := freshId (db.messages.map (fun m => m.id))
        from_user := me
        to_user := recipientId
        content := text
        is_read := false }
    (SendResult.sent, { db with messages := db.messages ++ [row] })

/-- Outcome of `send_chat_message` (`core/views.py` lines 1150 to 1211). -/
inductive ChatResult
  | noInput
  | userNotFound
  | youHaveBlockedThisUser
  | thisUserHasBlockedYou
  | requestWasRejected
  | requestIsPending
  | requestSent
  | serverError
  | sent
  deriving Repr, DecidableEq

/-- Embedding of `send_chat_message`: block checks on the real
`blocker` / `blocked` columns come first; the message-request lookup then
uses the nonexistent `sender` / `receiver` columns, so every execution that
passes the block checks raises `FieldError` (an uncaught server error); the
remaining branches are translated as written but are unreachable. -/
def send_chat_message (db : DB) (me toId : Nat) (content : String) : ChatResult × DB :=
  if content == "" then
    (ChatResult.noInput, db)
  else if !(db.users.contains toId) then
    (ChatResult.userNotFound, db)
  else if db.userBlocks.any (fun b => b.blocker == me && b.blocked == toId) then
    (ChatResult.youHaveBlockedThisUser, db)
  else if db.userBlocks.any (fun b => b.blocker == toId && b.blocked == me) then
    (ChatResult.thisUserHasBlockedYou, db)
  else
    match mrFilter_sender_receiver db me toId with
    | Except.error _ => (ChatResult.serverError, db)
    | Except.ok mrs =>
      let sendIt : ChatResult × DB :=
        let row : MessageRow :=
          { id := freshId (db.messages.map (fun m => m.id))
            from_user := me
            to_user := toId
            content := content
            is_read := false }
        (ChatResult.sent, { db with messages := db.messages ++ [row] })
      match mrs.head? with
      | some mr =>
        if mr.status == "rejected" then (ChatResult.requestWasRejected, db)
        else if mr.status == "pending" then (ChatResult.requestIsPending, db)
        else sendIt
      | none =>
        if !(db.messages.any (fun m =>
              (m.from_user == me && m.to_user == toId) ||
              (m.from_user == toId && m.to_user == me))) then
          match mrCreate_sender_receiver db me toId content with
          | Except.error _ => (ChatResult.serverError, db)
          | Except.ok db2 => (ChatResult.requestSent, db2)
        else sendIt

/-- Outcome of `mark_messages_read` (`core/views.py` lines 1213 to 1221). -/
inductive MarkReadResult
  | userNotFound
  | success
  deriving Repr, DecidableEq

/-- Embedding of `mark_messages_read`: set `is_read` on exactly the rows
`filter(from_user=other_user, to_user=request.user, is_read=False)`. -/
def mark_messages_read (db : DB) (me otherId : Nat) : MarkReadResult × DB :=
  if !(db.users.contains otherId) then
    (MarkReadResult.userNotFound, db)
  else
    let l := updateWhere
      (fun m => m.from_user == otherId && m.to_user == me && m.is_read == false)
      (fun m => { m with is_read := true }) db.messages
    (MarkReadResult.success, { db with messages := l })

-- ==============================
-- BLOCKING & MESSAGE REQUESTS
-- ==============================

/-- Outcome of `block_user` (`core/views.py` lines 1723 to 1784). -/
inductive BlockResult
  | userNotFound
  | cannotBlockYourself
  | alreadyBlocked
  | success
  deriving Repr, DecidableEq

/-- Embedding of `block_user`: user lookup, self-block rejection, existing
block short-circuit, then a `UserBlock` create and the cascade
`MessageRequest.objects.filter(from_user=blocked, to_user=blocker,
status='PENDING').update(status='DECLINED')` (these keywords all resolve on
the model). -/
def block_user (db : DB) (me target : Nat) : BlockResult × DB :=
  if !(db.users.contains target) then
    (BlockResult.userNotFound, db)
  else if me == target then
    (BlockResult.cannotBlockYourself, db)
  else if db.userBlocks.any (fun b => b.blocker == me && b.blocked == target) then
    (BlockResult.alreadyBlocked, db)
  else
    let newBlock : UserBlockRow := { blocker := me, blocked := target }
    let db1 := { db with userBlocks := db.userBlocks ++ [newBlock] }
    let l := updateWhere
      (fun q => q.from_user == target && q.to_user == me && q.status == "PENDING")
      (fun q => { q with status := "DECLINED" }) db1.messageRequests
    (BlockResult.success, { db1 with messageRequests := l })

/-- Outcome of `unblock_user` (`core/views.py` lines 1795 to 1819). -/
inductive UnblockResult
  | userNotFound
  | success
  | warningNotBlocked
  deriving Repr, DecidableEq

/-- Embedding of `unblock_user`: delete all `UserBlock` rows with
`blocker=request.user, blocked=user_to_unblock`; report success when at
least one row was deleted and a warning otherwise. -/
def unblock_user (db : DB) (me target : Nat) : UnblockResult × DB :=
  if !(db.users.contains target) then
    (UnblockResult.userNotFound, db)
  else
    let remaining := db.userBlocks.filter (fun b => !(b.blocker == me && b.blocked == target))
    let deletedCount := db.userBlocks.length - remaining.length
    if deletedCount > 0 then
      (UnblockResult.success, { db with userBlocks := remaining })
    else
      (UnblockResult.warningNotBlocked, { db with userBlocks := remaining })

/-- Outcome of the message-request moderation views, which answer JSON
`{'success': bool, 'error'?}`. -/
inductive MRResult
  | ok
  | userNotFoundErr
  | requestNotFoundErr
  | caughtErrorResponse
  | alreadyProcessed
  deriving Repr, DecidableEq

/-- Embedding of `accept_message_request` (`core/views.py` lines 1821 to
1844): inside `try`, look the sender up, then
`MessageRequest.objects.get(sender=..., receiver=..., status='pending')`.
That query raises `FieldError`, which the blanket `except Exception`
converts into a `success: False` JSON response; no row is ever updated. -/
def accept_message_request (db : DB) (me senderId : Nat) : MRResult × DB :=
  if !(db.users.contains senderId) then
    (MRResult.userNotFoundErr, db)
  else
    match mrGet_sender_receiver_pending db senderId me with
    | Except.error _ => (MRResult.caughtErrorResponse, db)
    | Except.ok mr =>
      let l := updateWhere (fun q => q.id == mr.id)
        (fun q => { q with status := "accepted" }) db.messageRequests
      (MRResult.ok, { db with messageRequests := l })

/-- Embedding of `reject_message_request` (`core/views.py` lines 1846 to
1869): identical shape to `accept_message_request`, writing `'rejected'`;
the `sender` / `receiver` query again raises and is caught. -/
def reject_message_request (db : DB) (me senderId : Nat) : MRResult × DB :=
  if !(db.users.contains senderId) then
    (MRResult.userNotFoundErr, db)
  else
    match mrGet_sender_receiver_pending db senderId me with
    | Except.error _ => (MRResult.caughtErrorResponse, db)
    | Except.ok mr =>
      let l := updateWhere (fun q => q.id == mr.id)
        (fun q => { q with status := "rejected" }) db.messageRequests
      (MRResult.ok, { db with messageRequests := l })

/-- Embedding of `decline_message_request` (`core/views.py` lines 1872 to
1888): `get_object_or_404(MessageRequest, id=request_id,
to_user=request.user)` (valid keywords), then the transition runs only when
the stored status is the lowercase `'pending'`, writing the lowercase
`'rejected'`; any other stored status answers `already processed`.  The
`Http404` from a failed lookup is caught by the blanket `except`. -/
def decline_message_request (db : DB) (me reqId : Nat) : MRResult × DB :=
  match db.messageRequests.find? (fun q => q.id == reqId && q.to_user == me) with
  | none => (MRResult.caughtErrorResponse, db)
  | some mr =>
    if mr.status == "pending" then
      let l := updateWhere (fun q => q.id == reqId && q.to_user == me)
        (fun q => { q with status := "rejected" }) db.messageRequests
      (MRResult.ok, { db with messageRequests := l })
    else
      (MRResult.alreadyProcessed, db)

-- ==============================
-- MEETING FORM VALIDATION
-- ==============================

/-- Minutes in the 365-day horizon of `clean_scheduled_date`. -/
def yearMinutes : Int := 365 * 24 * 60

/-- Embedding of `MeetingForm.clean_scheduled_date` (`core/forms.py` lines
161 to 171), with time in minutes and `now` the single instant at which
validation runs: rejects a date in the past and a date more than one year
ahead. -/
def clean_scheduled_date (now sched : Int) : Bool :=
  !(decide (sched < now)) && !(decide (sched > now + yearMinutes))

/-- Embedding of `MeetingForm.clean_duration_minutes` together with the
field bounds `min_value=15, max_value=480` (`core/forms.py` lines 108 to
118 and 173 to 179). -/
def clean_duration_minutes (duration : Int) : Bool :=
  !(decide (duration < 15)) && !(decide (duration > 480))

/-- Embedding of `MeetingForm.clean` (`core/forms.py` lines 186 to 199):
with both fields individually clean, the computed end time must not be in
the past. -/
def meeting_form_clean (now sched duration : Int) : Bool :=
  !(decide (sched + duration < now))

/-- Overall validation verdict of `MeetingForm` on the scheduled date and
duration: the form is valid exactly when every clean step passes (the
cross-field check runs only when both fields cleaned, which the
conjunction reflects). -/
def meeting_form_is_valid (now sched duration : Int) : Bool :=
  clean_scheduled_date now sched && clean_duration_minutes duration &&
    meeting_form_clean now sched duration

-- ==============================
-- CONCRETE STATES FOR THE CLAIM THEOREMS
-- ==============================

/-- Two users, no messages, no requests, no blocks: the first-contact
state of claim C1. -/
def firstContactDb : DB :=
  { users := [1, 2], skills := [], skillRequests := [], messages := [],
    userBlocks := [], messageRequests := [] }

/-- One `COMPLETED` and one `PENDING` skill request, both owned by user 3
with requester 2. -/
def transDb : DB :=
  { users := [2, 3], skills := [],
    skillRequests :=
      [{ id := 1, skill := 7, requester := 2, owner := 3, status := "COMPLETED",
         started_at := none, completed_at := none },
       { id := 2, skill := 9, requester := 2, owner := 3, status := "PENDING",
         started_at := none, completed_at := none }],
    messages := [], userBlocks := [], messageRequests := [] }

/-- Skill 5 owned by user 1, and no skill request at all. -/
def ownerDb : DB :=
  { users := [1, 2], skills := [{ id := 5, owner := 1 }], skillRequests := [],
    messages := [], userBlocks := [], messageRequests := [] }

/-- Skill 5 owned by user 1, already requested by user 2 with the request
in status `IN_PROGRESS` (reachable through `start_skill_session`). -/
def inProgressDb : DB :=
  { users := [1, 2], skills := [{ id := 5, owner := 1 }],
    skillRequests :=
      [{ id := 1, skill := 5, requester := 2, owner := 1, status := "IN_PROGRESS",
         started_at := some 10, completed_at := none }],
    messages := [], userBlocks := [], messageRequests := [] }

/-- Like `inProgressDb` but with the existing request in status
`ACCEPTED`, one of the model's declared status choices. -/
def acceptedDb : DB :=
  { users := [1, 2], skills := [{ id := 5, owner := 1 }],
    skillRequests :=
      [{ id := 1, skill := 5, requester := 2, owner := 1, status := "ACCEPTED",
         started_at := none, completed_at := none }],
    messages := [], userBlocks := [], messageRequests := [] }

/-- One message request from user 2 to user 1 in the model-default status
`"PENDING"`. -/
def mrDb : DB :=
  { users := [1, 2], skills := [], skillRequests := [], messages := [],
    userBlocks := [], messageRequests := [{ id := 1, from_user := 2, to_user := 1, status := "PENDING" }] }

/-- User 1 has blocked user 2; nothing else. -/
def blkDb : DB :=
  { users := [1, 2], skills := [], skillRequests := [], messages := [],
    userBlocks := [{ blocker := 1, blocked := 2 }], messageRequests := [] }

/-- Message requests in assorted directions and statuses around users 1
and 2, with no block yet. -/
def cascadeDb : DB :=
  { users := [1, 2], skills := [], skillRequests := [], messages := [],
    userBlocks := [],
    messageRequests :=
      [{ id := 1, from_user := 2, to_user := 1, status := "PENDING" },
       { id := 2, from_user := 1, to_user := 2, status := "PENDING" },
       { id := 3, from_user := 2, to_user := 1, status := "ACCEPTED" }] }

/-- Messages around users 1 and 2 with mixed read flags. -/
def readDb : DB :=
  { users := [1, 2], skills := [], skillRequests := [],
    messages :=
      [{ id := 1, from_user := 2, to_user := 1, content := "a", is_read := false },
       { id := 2, from_user := 1, to_user := 2, content := "b", is_read := false },
       { id := 3, from_user := 2, to_user := 1, content := "c", is_read := true }],
    userBlocks := [], messageRequests := [] }

/-- A single user, for the self-block claim. -/
def selfDb : DB :=
  { users := [7], skills := [], skillRequests := [], messages := [],
    userBlocks := [], messageRequests := [] }

/-- User 1 has blocked user 2, for the unblock claim. -/
def ubDb : DB :=
  { users := [1, 2], skills := [], skillRequests := [], messages := [],
    userBlocks := [{ blocker := 1, blocked := 2 }], messageRequests := [] }

-- ==============================
-- CLAIM THEOREMS
-- ==============================

/-- C1: with users A = 1 and B = 2, no message in either direction, no
message request and no block, the first chat message attempt by A reaches
the `sender` / `receiver` query of `send_chat_message`, which raises
`FieldError`; the view answers a server error and the database is
unchanged, so no `PENDING` `MessageRequest` is created (the claim expects
one), and no `Message` row is created. -/
theorem send_chat_message_first_contact_raises :
    send_chat_message firstContactDb 1 2 "hi" = (ChatResult.serverError, firstContactDb) ∧
    firstContactDb.messageRequests = [] ∧ firstContactDb.messages = [] := by
  decide

/-- C2: `accept_request`, `reject_request` and `complete_request` never
check the source status, so called by the authorized party from a wrong
source state they report success and overwrite the status instead of
leaving it unchanged with an error: the owner accepts or rejects a
`COMPLETED` request and the requester completes a `PENDING` request. -/
theorem skill_request_transitions_overwrite :
    (accept_request transDb 3 1).1 = TransitionResult.success ∧
    ((accept_request transDb 3 1).2.skillRequests.map (fun r => r.status)) =
      ["APPROVED", "PENDING"] ∧
    (reject_request transDb 3 1).1 = TransitionResult.success ∧
    ((reject_request transDb 3 1).2.skillRequests.map (fun r => r.status)) =
      ["REJECTED", "PENDING"] ∧
    (complete_request transDb 2 2).1 = TransitionResult.success ∧
    ((complete_request transDb 2 2).2.skillRequests.map (fun r => r.status)) =
      ["COMPLETED", "COMPLETED"] := by
  decide

/-- C3 counterexample, refuting both halves of the claim as stated.
First half: with the existing request in status `IN_PROGRESS` the second
creation attempt answers the generic info message, the very same response
as for a request in the distinct status `ACCEPTED`, so the response does
not report the existing status back to the caller.  Second half: skill 5
exists and no `SkillRequest` for the pair (5, user 1) exists, yet the
creation attempt by user 1 (the owner) creates no row at all, against the
claim that exactly one new `PENDING` row is then created. -/
theorem request_skill_status_not_reported :
    request_skill inProgressDb 2 5 =
      (RequestSkillResult.alreadyRequested msg_already_generic, inProgressDb) ∧
    request_skill acceptedDb 2 5 =
      (RequestSkillResult.alreadyRequested msg_already_generic, acceptedDb) ∧
    (inProgressDb.skillRequests.map (fun r => r.status)) ≠
      (acceptedDb.skillRequests.map (fun r => r.status)) ∧
    ownerDb.skillRequests = [] ∧
    request_skill ownerDb 1 5 = (RequestSkillResult.ownSkill, ownerDb) := by
  decide

/-- C4: on a `MessageRequest` from user 2 to user 1 in the model-default
status `"PENDING"`, every moderation attempt by the receiver fails and the
row keeps its status: `accept_message_request` and
`reject_message_request` query the nonexistent `sender` / `receiver`
columns and answer a caught-error JSON, and `decline_message_request`
compares the status against the lowercase `'pending'` and answers
`already processed`; no transition to `ACCEPTED` or `DECLINED` happens. -/
theorem message_request_moderation_frozen :
    accept_message_request mrDb 1 2 = (MRResult.caughtErrorResponse, mrDb) ∧
    reject_message_request mrDb 1 2 = (MRResult.caughtErrorResponse, mrDb) ∧
    decline_message_request mrDb 1 1 = (MRResult.alreadyProcessed, mrDb) ∧
    (mrDb.messageRequests.map (fun q => q.status)) = ["PENDING"] := by
  decide

/-- C5 counterexample: user 1 has blocked user 2, yet a message sent by
user 2 to user 1 through `send_message` succeeds and creates a `Message`
row, because `send_message` performs no block check; the claim that every
send attempt between a blocked pair fails is therefore false as stated. -/
theorem send_message_ignores_block :
    blkDb.userBlocks = [{ blocker := 1, blocked := 2 }] ∧
    (send_message blkDb 2 1 "hi").1 = SendResult.sent ∧
    (send_message blkDb 2 1 "hi").2.messages.length = 1 := by
  decide

/-- C7: `MeetingForm` validation rejects exactly the inputs where the
scheduled date is before the validation instant, more than one year after
it, the duration lies outside [15, 480], or the computed end time falls in
the past; in particular a past scheduled date fails and a duration of 600
minutes fails. -/
theorem meeting_form_valid_characterisation :
    (∀ now sched duration : Int,
      meeting_form_is_valid now sched duration = false ↔
        (sched < now ∨ sched > now + yearMinutes ∨ duration < 15 ∨ duration > 480 ∨
          sched + duration < now)) ∧
    meeting_form_is_valid 0 (-1) 60 = false ∧
    meeting_form_is_valid 0 0 600 = false := by
  refine ⟨?_, by decide, by decide⟩
  intro now sched duration
  simp only [meeting_form_is_valid, clean_scheduled_date, clean_duration_minutes,
    meeting_form_clean, yearMinutes, Bool.and_eq_false_iff, Bool.not_eq_false',
    decide_eq_true_eq]
  omega

/-- C9: an attempt by any existing user to block themselves is rejected
with an error response and the whole database, the block table included,
is unchanged. -/
theorem block_self_rejected (db : DB) (u : Nat)
    (hu : db.users.contains u = true) :
    block_user db u u = (BlockResult.cannotBlockYourself, db) := by
  have hm : u ∈ db.users := by simpa using hu
  simp [block_user, hm]

/-- Witness for C9 at user 7. -/
theorem block_self_rejected_witness :
    block_user selfDb 7 7 = (BlockResult.cannotBlockYourself, selfDb) :=
  block_self_rejected selfDb 7 (by decide)

/-- C5 (amended to the chat send path): whenever either side of the pair
has blocked the other, a chat message attempt through `send_chat_message`
leaves the database unchanged (in particular no `Message` row is created)
and reports one of the two direction-specific blocked errors, the
you-have-blocked-this-user one exactly when the sender is the blocker. -/
theorem send_chat_message_blocked_gate (db : DB) (me toId : Nat) (content : String)
    (hc : (content == "") = false)
    (hu : db.users.contains toId = true)
    (hb : db.userBlocks.any (fun b => b.blocker == me && b.blocked == toId) = true ∨
          db.userBlocks.any (fun b => b.blocker == toId && b.blocked == me) = true) :
    (send_chat_message db me toId content).2 = db ∧
    ((send_chat_message db me toId content).1 = ChatResult.youHaveBlockedThisUser ∨
     (send_chat_message db me toId content).1 = ChatResult.thisUserHasBlockedYou) ∧
    ((send_chat_message db me toId content).1 = ChatResult.youHaveBlockedThisUser ↔
      db.userBlocks.any (fun b => b.blocker == me && b.blocked == toId) = true) := by
  have hm : toId ∈ db.users := by simpa using hu
  cases h1 : db.userBlocks.any (fun b => b.blocker == me && b.blocked == toId) with
  | true =>
    have : send_chat_message db me toId content = (ChatResult.youHaveBlockedThisUser, db) := by
      simp [send_chat_message, hc, hm, h1]
    simp [this]
  | false =>
    have h2 : db.userBlocks.any (fun b => b.blocker == toId && b.blocked == me) = true := by
      rcases hb with h | h
      · rw [h1] at h; exact absurd h (by simp)
      · exact h
    have : send_chat_message db me toId content = (ChatResult.thisUserHasBlockedYou, db) := by
      simp [send_chat_message, hc, hm, h1, h2]
    simp [this]

/-- Witness for C5 with user 1 having blocked user 2 and sending to 2. -/
theorem send_chat_message_blocked_gate_witness :
    (send_chat_message blkDb 1 2 "hi").2 = blkDb ∧
    ((send_chat_message blkDb 1 2 "hi").1 = ChatResult.youHaveBlockedThisUser ∨
     (send_chat_message blkDb 1 2 "hi").1 = ChatResult.thisUserHasBlockedYou) :=
  have h := send_chat_message_blocked_gate blkDb 1 2 "hi" (by decide) (by decide)
    (Or.inl (by decide))
  ⟨h.1, h.2.1⟩

/-- Helper fact: with the target user present, `unblock_user` leaves the
block table filtered of the (blocker, blocked) pair and every other table
untouched, whichever of success or warning the view reports. -/
theorem unblock_user_snd (db : DB) (me target : Nat)
    (hu : db.users.contains target = true) :
    (unblock_user db me target).2 =
      { db with userBlocks :=
          db.userBlocks.filter (fun b => !(b.blocker == me && b.blocked == target)) } := by
  have hcond : (!(db.users.contains target)) = false := by rw [hu]; rfl
  unfold unblock_user
  rw [hcond]
  simp only [Bool.false_eq_true, if_false]
  split <;> rfl

/-- Helper fact: when no (blocker, blocked) row matches, `unblock_user`
reports the warning and changes nothing. -/
theorem unblock_user_noop (db2 : DB) (me target : Nat)
    (hu : db2.users.contains target = true)
    (hflt : db2.userBlocks.filter (fun b => !(b.blocker == me && b.blocked == target)) =
      db2.userBlocks) :
    unblock_user db2 me target = (UnblockResult.warningNotBlocked, db2) := by
  have hcond : (!(db2.users.contains target)) = false := by rw [hu]; rfl
  unfold unblock_user
  rw [hcond]
  simp only [Bool.false_eq_true, if_false, hflt, Nat.sub_self, gt_iff_lt, Nat.lt_irrefl,
    if_false]

/-- C10: after an unblock no (blocker, blocked) row for the pair remains;
running the unblock again changes nothing at all and reports the warning
rather than an error, and the first run touches no table other than the
block table. -/
theorem unblock_user_idempotent (db : DB) (me target : Nat)
    (hu : db.users.contains target = true) :
    ((unblock_user db me target).2.userBlocks.any
        (fun b => b.blocker == me && b.blocked == target)) = false ∧
    unblock_user (unblock_user db me target).2 me target =
      (UnblockResult.warningNotBlocked, (unblock_user db me target).2) ∧
    (unblock_user db me target).2.users = db.users ∧
    (unblock_user db me target).2.messages = db.messages ∧
    (unblock_user db me target).2.skillRequests = db.skillRequests ∧
    (unblock_user db me target).2.messageRequests = db.messageRequests ∧
    (unblock_user db me target).2.skills = db.skills := by
  have hsnd := unblock_user_snd db me target hu
  have hflt : ∀ b ∈ db.userBlocks.filter (fun b => !(b.blocker == me && b.blocked == target)),
      (!(b.blocker == me && b.blocked == target)) = true := by
    intro b hbmem
    exact (List.mem_filter.mp hbmem).2
  have hany : ((unblock_user db me target).2.userBlocks.any
      (fun b => b.blocker == me && b.blocked == target)) = false := by
    rw [hsnd]
    simp only [List.any_eq_false]
    intro b hbmem
    have hb := hflt b hbmem
    simp only [Bool.not_eq_true'] at hb
    simp [hb]
  have hidem : (unblock_user db me target).2.userBlocks.filter
      (fun b => !(b.blocker == me && b.blocked == target)) =
      (unblock_user db me target).2.userBlocks := by
    rw [hsnd]
    exact List.filter_eq_self.mpr hflt
  have hu2 : (unblock_user db me target).2.users.contains target = true := by
    rw [hsnd]; exact hu
  exact ⟨hany, unblock_user_noop _ me target hu2 hidem, by rw [hsnd], by rw [hsnd],
    by rw [hsnd], by rw [hsnd], by rw [hsnd]⟩

/-- Witness for C10 with user 1 unblocking user 2 twice. -/
theorem unblock_user_idempotent_witness :
    ((unblock_user ubDb 1 2).2.userBlocks.any
        (fun b => b.blocker == 1 && b.blocked == 2)) = false ∧
    unblock_user (unblock_user ubDb 1 2).2 1 2 =
      (UnblockResult.warningNotBlocked, (unblock_user ubDb 1 2).2) :=
  have h := unblock_user_idempotent ubDb 1 2 (by decide)
  ⟨h.1, h.2.1⟩

/-- C3 (amended): for callers other than the skill owner, when a request
for the (skill, requester) pair already exists in any status, no new row
is created and the caller is answered with the info message the view
dispatches on the existing status — a message specific to the status for
`PENDING`, `APPROVED`, `REJECTED` and `COMPLETED` (the five emitted
messages are pairwise distinct), and the generic already-requested message
for any other status; when no request exists, exactly one new row with
status `PENDING` is appended and nothing else changes. -/
theorem request_skill_dedup_nonowner (db : DB) (me skillId : Nat) (s : SkillRow)
    (hs : db.skills.find? (fun x => x.id == skillId) = some s)
    (ho : (s.owner == me) = false) :
    (∀ ex, db.skillRequests.find? (fun r => r.skill == skillId && r.requester == me) = some ex →
      request_skill db me skillId =
        (RequestSkillResult.alreadyRequested (request_skill_info_message ex.status), db)) ∧
    [msg_already_pending, msg_already_approved, msg_already_rejected, msg_already_completed,
      msg_already_generic].Nodup ∧
    (db.skillRequests.find? (fun r => r.skill == skillId && r.requester == me) = none →
      (request_skill db me skillId).1 = RequestSkillResult.created ∧
      (request_skill db me skillId).2.skillRequests =
        db.skillRequests ++
          [{ id := freshId (db.skillRequests.map (fun r => r.id)), skill := skillId,
             requester := me, owner := s.owner, status := "PENDING",
             started_at := none, completed_at := none }] ∧
      (request_skill db me skillId).2.users = db.users ∧
      (request_skill db me skillId).2.skills = db.skills ∧
      (request_skill db me skillId).2.messages = db.messages ∧
      (request_skill db me skillId).2.userBlocks = db.userBlocks ∧
      (request_skill db me skillId).2.messageRequests = db.messageRequests) := by
  refine ⟨?_, by decide, ?_⟩
  · intro ex hex
    unfold request_skill
    rw [hs]
    simp [ho, hex]
  · intro hnone
    unfold request_skill
    rw [hs]
    simp [ho, hnone]

/-- Witness for C3: user 2 requesting skill 5 owned by user 1 creates the
one `PENDING` row when no request exists, and is answered the
status-dispatched message (here the generic one for `IN_PROGRESS`) when a
request exists. -/
theorem request_skill_dedup_nonowner_witness :
    ((request_skill ownerDb 2 5).1 = RequestSkillResult.created ∧
      (request_skill ownerDb 2 5).2.skillRequests =
        [{ id := 1, skill := 5, requester := 2, owner := 1, status := "PENDING",
           started_at := none, completed_at := none }]) ∧
    request_skill inProgressDb 2 5 =
      (RequestSkillResult.alreadyRequested
        (request_skill_info_message ("IN_PROGRESS")), inProgressDb) :=
  have h := (request_skill_dedup_nonowner ownerDb 2 5 { id := 5, owner := 1 }
    (by decide) (by decide)).2.2 (by decide)
  have h2 := (request_skill_dedup_nonowner inProgressDb 2 5 { id := 5, owner := 1 }
    (by decide) (by decide)).1
    { id := 1, skill := 5, requester := 2, owner := 1, status := "IN_PROGRESS",
      started_at := some 10, completed_at := none } (by decide)
  ⟨⟨h.1, by rw [h.2.1]; decide⟩, h2⟩

/-- C6: after a user who exists and is not the caller and was not yet
blocked by the caller is blocked, exactly one `UserBlock` row for the pair
exists, every `MessageRequest` from the blocked user to the blocker whose
status was `PENDING` occurs with status `DECLINED` in the new state, every
other message request is carried over unchanged, the table keeps its
length and all unrelated tables are untouched. -/
theorem block_user_cascade_declines_pending (db : DB) (me target : Nat)
    (hu : db.users.contains target = true)
    (hne : (me == target) = false)
    (hnb : db.userBlocks.any (fun b => b.blocker == me && b.blocked == target) = false) :
    (block_user db me target).1 = BlockResult.success ∧
    ((block_user db me target).2.userBlocks.filter
        (fun b => b.blocker == me && b.blocked == target)).length = 1 ∧
    (block_user db me target).2.messageRequests.length = db.messageRequests.length ∧
    (∀ q ∈ db.messageRequests,
      q.from_user = target → q.to_user = me → q.status = "PENDING" →
        { q with status := "DECLINED" } ∈ (block_user db me target).2.messageRequests) ∧
    (∀ q ∈ db.messageRequests,
      ¬(q.from_user = target ∧ q.to_user = me ∧ q.status = "PENDING") →
        q ∈ (block_user db me target).2.messageRequests) ∧
    (block_user db me target).2.messages = db.messages ∧
    (block_user db me target).2.skillRequests = db.skillRequests ∧
    (block_user db me target).2.users = db.users ∧
    (block_user db me target).2.skills = db.skills := by
  have hcond : (!(db.users.contains target)) = false := by rw [hu]; rfl
  have hkey : block_user db me target =
      (BlockResult.success,
        { db with
            userBlocks := db.userBlocks ++ [{ blocker := me, blocked := target }],
            messageRequests := updateWhere
              (fun q => q.from_user == target && q.to_user == me && q.status == "PENDING")
              (fun q => { q with status := "DECLINED" }) db.messageRequests }) := by
    unfold block_user
    rw [hcond, hne, hnb]
    simp
  refine ⟨by rw [hkey], ?_, ?_, ?_, ?_, by rw [hkey], by rw [hkey], by rw [hkey], by rw [hkey]⟩
  · rw [hkey]
    simp only [List.filter_append]
    have h0 : db.userBlocks.filter (fun b => b.blocker == me && b.blocked == target) = [] := by
      rw [List.filter_eq_nil_iff]
      intro a ha
      have := List.any_eq_false.mp hnb a ha
      simpa using this
    rw [h0]
    simp
  · rw [hkey]
    simp [updateWhere]
  · intro q hq h1 h2 h3
    rw [hkey]
    simp only [updateWhere]
    have hpq : (q.from_user == target && q.to_user == me && q.status == "PENDING") = true := by
      simp [h1, h2, h3]
    have hmem := List.mem_map_of_mem
      (fun q => if (q.from_user == target && q.to_user == me && q.status == "PENDING") = true
        then { q with status := "DECLINED" } else q) hq
    simpa [hpq] using hmem
  · intro q hq hnp
    rw [hkey]
    simp only [updateWhere]
    have hpq : (q.from_user == target && q.to_user == me && q.status == "PENDING") = false := by
      cases hb : (q.from_user == target && q.to_user == me && q.status == "PENDING") with
      | true =>
        exfalso
        apply hnp
        simp only [Bool.and_eq_true, beq_iff_eq] at hb
        exact ⟨hb.1.1, hb.1.2, hb.2⟩
      | false => rfl
    have hmem := List.mem_map_of_mem
      (fun q => if (q.from_user == target && q.to_user == me && q.status == "PENDING") = true
        then { q with status := "DECLINED" } else q) hq
    simpa [hpq] using hmem

/-- Witness for C6: user 1 blocks user 2 and the pending request from 2
is declined. -/
theorem block_user_cascade_declines_pending_witness :
    (block_user cascadeDb 1 2).1 = BlockResult.success ∧
    { id := 1, from_user := 2, to_user := 1, status := "DECLINED" } ∈
      (block_user cascadeDb 1 2).2.messageRequests :=
  have h := block_user_cascade_declines_pending cascadeDb 1 2 (by decide) (by decide) (by decide)
  ⟨h.1, by
    have := h.2.2.2.1 { id := 1, from_user := 2, to_user := 1, status := "PENDING" }
      (by decide) rfl rfl rfl
    simpa using this⟩

/-- C8: `mark_messages_read` flips `is_read` to true on exactly the rows
with the given sender, the caller as recipient and `is_read` false; every
other message row, the other fields of the affected rows, and every other
table are left unchanged, so `is_read` only ever flips from false to
true. -/
theorem mark_messages_read_frame (db : DB) (me otherId : Nat)
    (hu : db.users.contains otherId = true) :
    (mark_messages_read db me otherId).1 = MarkReadResult.success ∧
    (mark_messages_read db me otherId).2.messages.length = db.messages.length ∧
    (∀ i (h : i < db.messages.length)
        (h2 : i < (mark_messages_read db me otherId).2.messages.length),
      ((db.messages.get ⟨i, h⟩).from_user = otherId ∧
          (db.messages.get ⟨i, h⟩).to_user = me ∧
          (db.messages.get ⟨i, h⟩).is_read = false →
        (mark_messages_read db me otherId).2.messages.get ⟨i, h2⟩ =
          { db.messages.get ⟨i, h⟩ with is_read := true }) ∧
      (¬((db.messages.get ⟨i, h⟩).from_user = otherId ∧
          (db.messages.get ⟨i, h⟩).to_user = me ∧
          (db.messages.get ⟨i, h⟩).is_read = false) →
        (mark_messages_read db me otherId).2.messages.get ⟨i, h2⟩ =
          db.messages.get ⟨i, h⟩)) ∧
    (mark_messages_read db me otherId).2.users = db.users ∧
    (mark_messages_read db me otherId).2.skills = db.skills ∧
    (mark_messages_read db me otherId).2.skillRequests = db.skillRequests ∧
    (mark_messages_read db me otherId).2.userBlocks = db.userBlocks ∧
    (mark_messages_read db me otherId).2.messageRequests = db.messageRequests := by
  have hcond : (!(db.users.contains otherId)) = false := by rw [hu]; rfl
  have hkey : mark_messages_read db me otherId =
      (MarkReadResult.success,
        { db with messages := (updateWhere
            (fun m => m.from_user == otherId && m.to_user == me && m.is_read == false)
            (fun m => { m with is_read := true }) db.messages) }) := by
    unfold mark_messages_read
    rw [hcond]
    simp
  refine ⟨by rw [hkey], by rw [hkey]; simp [updateWhere], ?_, by rw [hkey], by rw [hkey],
    by rw [hkey], by rw [hkey], by rw [hkey]⟩
  intro i h h2
  have hmeq : (mark_messages_read db me otherId).2.messages =
      List.map (fun m =>
        if (m.from_user == otherId && m.to_user == me && m.is_read == false) = true
          then { m with is_read := true } else m) db.messages := by
    rw [hkey]
    simp [updateWhere]
  have hget : (mark_messages_read db me otherId).2.messages.get ⟨i, h2⟩ =
      (if ((db.messages.get ⟨i, h⟩).from_user == otherId &&
          (db.messages.get ⟨i, h⟩).to_user == me &&
          (db.messages.get ⟨i, h⟩).is_read == false) = true
        then { db.messages.get ⟨i, h⟩ with is_read := true }
        else db.messages.get ⟨i, h⟩) := by
    simp only [List.get_eq_getElem]
    rw [List.getElem_of_eq hmeq h2]
    simp only [List.getElem_map]
  constructor
  · intro hp
    obtain ⟨h1', h2', h3'⟩ := hp
    have hpq : ((db.messages.get ⟨i, h⟩).from_user == otherId &&
        (db.messages.get ⟨i, h⟩).to_user == me &&
        (db.messages.get ⟨i, h⟩).is_read == false) = true := by
      simp only [List.get_eq_getElem] at h1' h2' h3'
      simp [h1', h2', h3']
    rw [hget, if_pos hpq]
  · intro hnp
    have hpq : ((db.messages.get ⟨i, h⟩).from_user == otherId &&
        (db.messages.get ⟨i, h⟩).to_user == me &&
        (db.messages.get ⟨i, h⟩).is_read == false) = false := by
      cases hb : ((db.messages.get ⟨i, h⟩).from_user == otherId &&
          (db.messages.get ⟨i, h⟩).to_user == me &&
          (db.messages.get ⟨i, h⟩).is_read == false) with
      | true =>
        exfalso
        apply hnp
        simp only [Bool.and_eq_true, beq_iff_eq] at hb
        exact ⟨hb.1.1, hb.1.2, hb.2⟩
      | false => rfl
    have hne : ¬(((db.messages.get ⟨i, h⟩).from_user == otherId &&
        (db.messages.get ⟨i, h⟩).to_user == me &&
        (db.messages.get ⟨i, h⟩).is_read == false) = true) := by
      rw [hpq]
      exact Bool.false_ne_true
    rw [hget, if_neg hne]

/-- Witness for C8 with user 1 marking the messages from user 2 read. -/
theorem mark_messages_read_frame_witness :
    (mark_messages_read readDb 1 2).1 = MarkReadResult.success ∧
    (mark_messages_read readDb 1 2).2.messages.length = readDb.messages.length :=
  have h := mark_messages_read_frame readDb 1 2 (by decide)
  ⟨h.1, h.2.1⟩
